import Mathlib

/-!
Shallow embedding of `src/app/jira-task-tracker.py`, a CLI tool that fetches
JIRA tickets assigned to a user, annotates each with whether the user has
commented on it, and renders a color-coded, sorted table with a summary line.

The JIRA service is external: it is modelled as a `Session` record carrying the
two observable operations the script uses (`search_issues` and `comments`),
plus the configuration strings the session is built from.  Python exceptions
(`KeyError` on the sort-key lookup, `IndexError` on negative list indexing)
are modelled with `Option` / explicit error constructors.  Python's `sorted`
is a stable ascending sort by the key function; any stable sort produces the
same list, so it is embedded as `List.insertionSort` with the non-strict key
comparison (insertion sort with `≤` is stable).
-/

namespace JiraTracker

/-- ANSI reset code, from the script's module-level constant `RESET`. -/
def RESET : String := "\x1b[0m"

/-- ANSI red, from the constant `RED`. -/
def RED : String := "\x1b[31m"

/-- ANSI green, from the constant `GREEN`. -/
def GREEN : String := "\x1b[32m"

/-- ANSI yellow, from the constant `YELLOW`. -/
def YELLOW : String := "\x1b[93m"

/-- ANSI blue, from the constant `BLUE` (unused by the pipeline). -/
def BLUE : String := "\x1b[34m"

/-- Python's `str.lower()`, applied per character (the script only
lower-cases ASCII material: status names and sort-field names). -/
def str_lower (s : String) : String :=
  ⟨s.data.map Char.toLower⟩

/-- A JIRA comment as the script observes it: only `comment.author.name`
is ever read. -/
structure Comment where
  authorName : String
deriving DecidableEq

/-- A JIRA ticket as the script observes it: `ticket.key`,
`ticket.fields.summary` and `ticket.fields.status.name`. -/
structure Ticket where
  key : String
  summary : String
  statusName : String
deriving DecidableEq

/-- The authenticated JIRA session.  `serverUrl`, `basicAuth` and
`certificate` are the environment-derived configuration from
`create_jira_session`; `searchIssues` and `comments` model the two service
calls the script performs (`session.search_issues(query, maxResults=...)`
and `session.comments(ticket)`). -/
structure Session where
  serverUrl : String
  basicAuth : String
  certificate : String
  searchIssues : String → Int → List Ticket
  comments : Ticket → List Comment

/-- The query string built in `get_user_tickets_in_range`:
`"assignee = {0} and updated >=  -{1}d order by key".format(user, days)`
(note the lower-case keywords and the double space of the original). -/
def query_string (user : String) (days : Int) : String :=
  "assignee = " ++ user ++ " and updated >=  -" ++ toString days ++ "d order by key"

/-- Function `get_user_tickets_in_range(session, user, days, max_results)`: build the
query and run `session.search_issues(query, maxResults=max_results)`. -/
def get_user_tickets_in_range (session : Session) (user : String)
    (days max_results : Int) : List Ticket :=
  session.searchIssues (query_string user days) max_results

/-- Function `get_ticket_comments(ticket, session)`: `session.comments(ticket)`. -/
def get_ticket_comments (ticket : Ticket) (session : Session) : List Comment :=
  session.comments ticket

/-- Function `has_user_commented(ticket, session, user)`: collect the comment author
names and test `user in authors` (Python `in` on a list of strings is exact,
case-sensitive string equality); return `'Yes'` or `'No'`. -/
def has_user_commented (ticket : Ticket) (session : Session) (user : String) : String :=
  let comments := get_ticket_comments ticket session
  let authors := comments.map (fun comment => comment.authorName)
  if user ∈ authors then "Yes" else "No"

/-- Function `get_ticket_data(session, ticket, user)`: the 4-tuple
`(ticket.key, ticket.fields.summary, ticket.fields.status.name, commented)`. -/
def get_ticket_data (session : Session) (ticket : Ticket) (user : String) :
    String × String × String × String :=
  (ticket.key, ticket.summary, ticket.statusName,
    has_user_commented ticket session user)

/-- Function `get_active_tickets(session, user, days, max_results)`: fetch the
assigned tickets, then loop, appending `[name, summary, status, commented]`
per ticket to the accumulator list. -/
def get_active_tickets (session : Session) (user : String)
    (days max_results : Int) : List (List String) :=
  let assigned_tickets := get_user_tickets_in_range session user days max_results
  assigned_tickets.foldl
    (fun acc ticket =>
      let d := get_ticket_data session ticket user
      acc ++ [[d.1, d.2.1, d.2.2.1, d.2.2.2]])
    []

/-- List `green_keys` of `color_text`. -/
def green_keys : List String := ["done", "cancelled"]

/-- List `yellow_keys` of `color_text`. -/
def yellow_keys : List String := ["in progress", "awaiting feedback", "in review"]

/-- List `red_keys` of `color_text`. -/
def red_keys : List String := ["to do", "on hold"]

/-- Function `color_text(text)`: returns `[]` on an empty row; otherwise inspects
`text[-2]` (the second-to-last element; Python raises `IndexError` when the
row has fewer than two elements, modelled as `none`), lower-cases it, and
wraps every field of the row in the matching color prefix and `RESET`
suffix; a row whose status matches no key list is returned unchanged. -/
def color_text (text : List String) : Option (List String) :=
  if text.isEmpty then
    some []
  else if text.length < 2 then
    none
  else
    let s := str_lower ((text.get? (text.length - 2)).getD "")
    if s ∈ green_keys then
      some (text.map (fun t => GREEN ++ t ++ RESET))
    else if s ∈ yellow_keys then
      some (text.map (fun t => YELLOW ++ t ++ RESET))
    else if s ∈ red_keys then
      some (text.map (fun t => RED ++ t ++ RESET))
    else
      some text

/-- Function `clean_row_data(data)`: loop over the rows, appending
`color_text([i for i in table])` for each; an `IndexError` raised by
`color_text` aborts the whole call (`none`). -/
def clean_row_data : List (List String) → Option (List (List String))
  | [] => some []
  | table :: rest => do
    let colored ← color_text (table.map (fun i => i))
    let out ← clean_row_data rest
    pure (colored :: out)

/-- The `headers` dictionary of `track_tickets`, mapping sort-field names to
column indices. -/
def headers : List (String × Nat) :=
  [("ticket", 0), ("summary", 1), ("status", 2), ("interacted", 3)]

/-- The sort key `lambda x: x[sort_idx]` of `track_tickets`.  Every row the
pipeline sorts has exactly 4 fields and `sort_idx ≤ 3`, so the `""` default
of `getD` is never consulted. -/
def row_sort_key (sort_idx : Nat) (x : List String) : String :=
  x.getD sort_idx ""

/-- Python's string comparison, spelled out: code-point lexicographic
non-strict order on the character lists. -/
def chars_le : List Char → List Char → Bool
  | [], _ => true
  | _ :: _, [] => false
  | a :: as, b :: bs =>
    if a.toNat < b.toNat then true
    else if b.toNat < a.toNat then false
    else chars_le as bs

/-- Comparison `s <= t` on Python strings: case-sensitive, code point by code point. -/
def str_le (s t : String) : Bool :=
  chars_le s.data t.data

/-- Embedding of `sorted(active_tickets, key=lambda x: x[sort_idx])`: Python's stable
ascending sort by the key.  Any stable sort under the total preorder
`str_le` on keys yields the same list, and insertion sort that inserts
before the first key-`≥` element is stable, so `List.insertionSort` with
the non-strict key comparison is a faithful embedding. -/
def sort_rows (sort_idx : Nat) (rows : List (List String)) : List (List String) :=
  rows.insertionSort
    (fun a b => str_le (row_sort_key sort_idx a) (row_sort_key sort_idx b) = true)

/-- What `track_tickets` prints on success: the (colored) data rows and
header row handed to `tabulate`, and the trailing summary sentence.  The
`tabulate` text layout itself is an external library and is not modelled
beyond its row/header inputs. -/
structure Output where
  tableRows : List (List String)
  tableHeaders : List String
  summary : String
deriving DecidableEq

/-- Result of a `track_tickets` run: `configError` is the `KeyError` raised
by `headers[sort_by.lower()]` (the spec's ConfigError), `rowError` the
`IndexError` that `color_text` could raise, `success` a normal run. -/
inductive TrackResult where
  | configError : TrackResult
  | rowError : TrackResult
  | success : Output → TrackResult
deriving DecidableEq

/-- The summary sentence
`"\nUser {0} worked on {1} tickets in the last {2} days.".format(user, len(active_tickets), days)`
(without the leading newline emitted by `print`). -/
def summary_line (user : String) (count : Nat) (days : Int) : String :=
  "User " ++ user ++ " worked on " ++ toString count ++
    " tickets in the last " ++ toString days ++ " days."

/-- Function `track_tickets(session, user, days, max_results, sort_by)`: look up
`headers[sort_by.lower()]` (a `KeyError` here aborts the run before
`get_active_tickets` — hence before any search call — which the lookup
being matched first captures), fetch and build the rows, sort them by the
selected column, color them, and emit the table inputs plus summary line. -/
def track_tickets (session : Session) (user : String) (days max_results : Int)
    (sort_by : String) : TrackResult :=
  match headers.lookup (str_lower sort_by) with
  | none => TrackResult.configError
  | some sort_idx =>
    let active_tickets := get_active_tickets session user days max_results
    match clean_row_data (sort_rows sort_idx active_tickets) with
    | none => TrackResult.rowError
    | some rows =>
      TrackResult.success
        ⟨rows, ["Ticket", "Summary", "Status", "Interacted"],
          summary_line user active_tickets.length days⟩

/-- Modelled from the spec: the query string the spec describes the Ticket
Fetcher as building, `"assignee = {user} AND updated >= -{days}d ORDER BY
key"`.  Declared only to be compared with `query_string`, the one the code
builds. -/
def spec_query_string (user : String) (days : Int) : String :=
  "assignee = " ++ user ++ " AND updated >= -" ++ toString days ++ "d ORDER BY key"

/-- Normal form under which two query strings are considered equivalent:
the character sequence, lower-cased and with all spaces removed.  Search
query keywords are case-insensitive and whitespace between tokens is not
significant, which is exactly what this quotients away. -/
def query_normalize (s : String) : List Char :=
  (s.data.map Char.toLower).filter (fun c => c != ' ')

/-- A concrete session used to instantiate theorems with hypotheses: two
tickets assigned, the user has commented on the second one only. -/
def sampleSession : Session where
  serverUrl := "https://jira.example.com"
  basicAuth := "alice:secret"
  certificate := ""
  searchIssues := fun _ _ =>
    [⟨"A-1", "Fix bug", "To Do"⟩, ⟨"A-2", "Add feature", "Done"⟩]
  comments := fun t => if t.key = "A-2" then [⟨"alice"⟩] else []

/-- The sample session with different credential configuration but the same
observable service data, used to instantiate the determinism theorem. -/
def sampleSessionAltAuth : Session :=
  { sampleSession with basicAuth := "bob:hunter2", certificate := "/etc/ssl/ca.pem" }

/-! ### Helper lemmas shared by the claim theorems -/

/-- Relation `chars_le` is total. -/
theorem chars_le_total : ∀ s t, chars_le s t = true ∨ chars_le t s = true := by
  intro s
  induction s with
  | nil => intro t; left; cases t <;> rfl
  | cons a as ih =>
    intro t
    cases t with
    | nil => right; rfl
    | cons b bs =>
      simp only [chars_le]
      rcases Nat.lt_trichotomy a.toNat b.toNat with h | h | h
      · left; simp [h]
      · have h1 : ¬ a.toNat < b.toNat := by omega
        have h2 : ¬ b.toNat < a.toNat := by omega
        simpa [h1, h2] using ih bs
      · right; simp [h]

/-- Relation `chars_le` is transitive. -/
theorem chars_le_trans :
    ∀ s t u, chars_le s t = true → chars_le t u = true → chars_le s u = true := by
  intro s
  induction s with
  | nil => intro t u _ _; cases u <;> rfl
  | cons a as ih =>
    intro t u h1 h2
    cases t with
    | nil => simp [chars_le] at h1
    | cons b bs =>
      cases u with
      | nil => simp [chars_le] at h2
      | cons c cs =>
        simp only [chars_le] at h1 h2 ⊢
        split_ifs at h1 h2 ⊢ <;> first | rfl | omega | (exact ih bs cs h1 h2)

/-- Relation `chars_le` is reflexive. -/
theorem chars_le_refl : ∀ s, chars_le s s = true := by
  intro s
  induction s with
  | nil => rfl
  | cons a as ih => simpa [chars_le] using ih

/-- A left fold that appends one image per element is `map`. -/
theorem foldl_append_singleton {α β : Type} (f : α → β) :
    ∀ (l : List α) (acc : List β),
      l.foldl (fun acc t => acc ++ [f t]) acc = acc ++ l.map f := by
  intro l
  induction l with
  | nil => intro acc; simp
  | cons t rest ih => intro acc; simp [List.foldl_cons, ih]

/-- The row-building loop of `get_active_tickets` produces exactly the map of
the per-ticket 4-field row over the fetched tickets, in fetch order. -/
theorem get_active_tickets_eq_map (session : Session) (user : String)
    (days max_results : Int) :
    get_active_tickets session user days max_results =
      (get_user_tickets_in_range session user days max_results).map
        (fun ticket =>
          [ticket.key, ticket.summary, ticket.statusName,
            has_user_commented ticket session user]) := by
  unfold get_active_tickets get_ticket_data
  rw [foldl_append_singleton]
  simp

/-- Every row built by `get_active_tickets` has exactly 4 fields. -/
theorem get_active_tickets_row_length (session : Session) (user : String)
    (days max_results : Int) :
    ∀ row ∈ get_active_tickets session user days max_results, row.length = 4 := by
  intro row hrow
  rw [get_active_tickets_eq_map] at hrow
  obtain ⟨t, _, rfl⟩ := List.mem_map.mp hrow
  rfl

/-- Elementwise description of a successful `clean_row_data` run: same number
of rows, and position `i` of the output is `color_text` of position `i` of
the input. -/
theorem clean_row_data_spec :
    ∀ (rows out : List (List String)), clean_row_data rows = some out →
      out.length = rows.length ∧
        ∀ (i : Nat) (r : List String), rows[i]? = some r →
          ∃ c, color_text r = some c ∧ out[i]? = some c := by
  intro rows
  induction rows with
  | nil =>
    intro out h
    simp only [clean_row_data] at h
    cases h
    exact ⟨rfl, by intro i r hr; simp at hr⟩
  | cons table rest ih =>
    intro out h
    simp only [clean_row_data, Option.bind_eq_bind, Option.bind_eq_some] at h
    obtain ⟨colored, hcol, restOut, hrest, hout⟩ := h
    obtain ⟨hlen, hidx⟩ := ih restOut hrest
    cases hout
    refine ⟨by simp [hlen], ?_⟩
    intro i r hr
    cases i with
    | zero =>
      simp only [List.getElem?_cons_zero, Option.some.injEq] at hr
      subst hr
      exact ⟨colored, by simpa using hcol, by simp⟩
    | succ j =>
      simp only [List.getElem?_cons_succ] at hr ⊢
      exact hidx j r hr

/-! ### Claim theorems -/

/-- C2: for every ticket, session and user, `has_user_commented` returns
exactly `"Yes"` or `"No"`, and it returns `"Yes"` iff the user identifier
equals, by exact case-sensitive string comparison, the author identifier of
at least one comment on the ticket. -/
theorem commented_flag_yes_iff_author_match (ticket : Ticket) (session : Session)
    (user : String) :
    (has_user_commented ticket session user = "Yes" ∨
      has_user_commented ticket session user = "No") ∧
    (has_user_commented ticket session user = "Yes" ↔
      user ∈ (get_ticket_comments ticket session).map
        (fun comment => comment.authorName)) := by
  unfold has_user_commented
  by_cases h : user ∈ (get_ticket_comments ticket session).map
      (fun comment => comment.authorName)
  · simp [h]
  · simp [h]

/-- C5: the row built for the ticket at any position of the fetch result has
first three fields exactly the ticket's key, summary and status name,
unmodified (no color codes are introduced at this stage), and fourth field
the Comment Inspector's flag. -/
theorem row_builder_preserves_fields (session : Session) (user : String)
    (days max_results : Int) (i : Nat) (ticket : Ticket)
    (h : (get_user_tickets_in_range session user days max_results)[i]? = some ticket) :
    (get_active_tickets session user days max_results)[i]? =
      some [ticket.key, ticket.summary, ticket.statusName,
        has_user_commented ticket session user] := by
  rw [get_active_tickets_eq_map, List.getElem?_map, h]
  rfl

/-- C3: for every 4-field row, `color_text` is a pure function of the
lowercased status field (the second-to-last element, index 2): status in the
green keys wraps all four fields in green, in the yellow keys in yellow, in
the red keys in red, and any other status returns the row unchanged; the
empty row yields empty output.  The single map per branch shows that all
four fields receive the identical prefix/reset wrapping and that colors are
never mixed within one row. -/
theorem color_classification (row : List String) (h : row.length = 4) :
    color_text row =
      some (
        if str_lower (row.getD 2 "") ∈ green_keys then
          row.map (fun t => GREEN ++ t ++ RESET)
        else if str_lower (row.getD 2 "") ∈ yellow_keys then
          row.map (fun t => YELLOW ++ t ++ RESET)
        else if str_lower (row.getD 2 "") ∈ red_keys then
          row.map (fun t => RED ++ t ++ RESET)
        else row) ∧
    color_text [] = some [] := by
  constructor
  · match row, h with
    | [a, b, c, d], _ =>
      simp [color_text, List.getD]
      split_ifs <;> rfl
  · rfl

/-- Witness for C3 at a concrete row: status `"To Do"` lower-cases into the
red class, so every field is wrapped in red. -/
theorem color_classification_witness :
    (["A-1", "Fix bug", "To Do", "No"] : List String).length = 4 ∧
    color_text ["A-1", "Fix bug", "To Do", "No"] =
      some (
        if str_lower ((["A-1", "Fix bug", "To Do", "No"] : List String).getD 2 "")
            ∈ green_keys then
          (["A-1", "Fix bug", "To Do", "No"] : List String).map
            (fun t => GREEN ++ t ++ RESET)
        else if str_lower ((["A-1", "Fix bug", "To Do", "No"] : List String).getD 2 "")
            ∈ yellow_keys then
          (["A-1", "Fix bug", "To Do", "No"] : List String).map
            (fun t => YELLOW ++ t ++ RESET)
        else if str_lower ((["A-1", "Fix bug", "To Do", "No"] : List String).getD 2 "")
            ∈ red_keys then
          (["A-1", "Fix bug", "To Do", "No"] : List String).map
            (fun t => RED ++ t ++ RESET)
        else ["A-1", "Fix bug", "To Do", "No"]) ∧
    color_text [] = some [] :=
  ⟨rfl, color_classification ["A-1", "Fix bug", "To Do", "No"] rfl⟩

/-- Witness for C5 at the sample session: the first fetched ticket is
`A-1 / Fix bug / To Do`, and its built row preserves those fields with the
commented flag `"No"`. -/
theorem row_builder_preserves_fields_witness :
    (get_user_tickets_in_range sampleSession "alice" 7 100)[0]? =
        some ⟨"A-1", "Fix bug", "To Do"⟩ ∧
    (get_active_tickets sampleSession "alice" 7 100)[0]? =
      some ["A-1", "Fix bug", "To Do",
        has_user_commented ⟨"A-1", "Fix bug", "To Do"⟩ sampleSession "alice"] :=
  ⟨rfl, row_builder_preserves_fields sampleSession "alice" 7 100 0
    ⟨"A-1", "Fix bug", "To Do"⟩ rfl⟩

/-- C4: for every `sort_by` outside the enumerated header set (after
lower-casing), `track_tickets` fails with the `KeyError` of
`headers[sort_by.lower()]` — the spec's ConfigError — for **every** session,
i.e. the outcome is independent of anything the service could return,
because the lookup is evaluated before `get_active_tickets` issues the
search; in particular the run never silently falls back to a default sort
(the result is `configError`, never `success`). -/
theorem invalid_sort_field_is_config_error (user : String) (days max_results : Int)
    (sort_by : String) (h : headers.lookup (str_lower sort_by) = none) :
    ∀ session : Session,
      track_tickets session user days max_results sort_by = TrackResult.configError := by
  intro session
  unfold track_tickets
  rw [h]

/-- Witness for C4: `sort_by = "priority"` is not a header key, and the run
on the sample session reports the configuration error. -/
theorem invalid_sort_field_is_config_error_witness :
    headers.lookup (str_lower "priority") = none ∧
    track_tickets sampleSession "alice" 7 100 "priority" = TrackResult.configError :=
  ⟨rfl, invalid_sort_field_is_config_error "alice" 7 100 "priority" rfl sampleSession⟩

/-- C10: the pipeline is deterministic and depends only on the service data
and the call parameters: two sessions that agree on the observable service
calls (`search_issues` and `comments`) produce identical `track_tickets`
results even when their server URL, credentials and certificate
configuration differ. -/
theorem pipeline_deterministic (s1 s2 : Session) (user : String)
    (days max_results : Int) (sort_by : String)
    (hsearch : s1.searchIssues = s2.searchIssues)
    (hcomments : s1.comments = s2.comments) :
    track_tickets s1 user days max_results sort_by =
      track_tickets s2 user days max_results sort_by := by
  have hfetch : get_user_tickets_in_range s1 user days max_results =
      get_user_tickets_in_range s2 user days max_results := by
    unfold get_user_tickets_in_range
    rw [hsearch]
  have hactive : get_active_tickets s1 user days max_results =
      get_active_tickets s2 user days max_results := by
    rw [get_active_tickets_eq_map, get_active_tickets_eq_map, hfetch]
    apply List.map_congr_left
    intro t _
    unfold has_user_commented get_ticket_comments
    rw [hcomments]
  unfold track_tickets
  cases headers.lookup (str_lower sort_by) with
  | none => rfl
  | some sort_idx => rw [hactive]

/-- Witness for C10: the sample session and its re-credentialed variant
agree on the service data, and the full run output coincides. -/
theorem pipeline_deterministic_witness :
    sampleSession.searchIssues = sampleSessionAltAuth.searchIssues ∧
    sampleSession.comments = sampleSessionAltAuth.comments ∧
    track_tickets sampleSession "alice" 7 100 "status" =
      track_tickets sampleSessionAltAuth "alice" 7 100 "status" :=
  ⟨rfl, rfl,
    pipeline_deterministic sampleSession sampleSessionAltAuth "alice" 7 100 "status"
      rfl rfl⟩

/-- C1: for every `sort_by` that lower-cases into the header set (so it is
matched case-insensitively and mapped to its column index by the `headers`
dictionary), the data rows of the rendered table — the sorted row list the
table is built from — are non-decreasing in the selected column under the
case-sensitive code-point string order `str_le`. -/
theorem rows_sorted_by_selected_column (session : Session) (user : String)
    (days max_results : Int) (sort_by : String) (sort_idx : Nat)
    (h : headers.lookup (str_lower sort_by) = some sort_idx) :
    List.Pairwise
      (fun a b => str_le (row_sort_key sort_idx a) (row_sort_key sort_idx b) = true)
      (sort_rows sort_idx (get_active_tickets session user days max_results)) := by
  haveI : IsTotal (List String)
      (fun a b => str_le (row_sort_key sort_idx a) (row_sort_key sort_idx b) = true) :=
    ⟨fun a b => chars_le_total _ _⟩
  haveI : IsTrans (List String)
      (fun a b => str_le (row_sort_key sort_idx a) (row_sort_key sort_idx b) = true) :=
    ⟨fun _ _ _ hab hbc => chars_le_trans _ _ _ hab hbc⟩
  exact List.sorted_insertionSort _ _

/-- Witness for C1: `sort_by = "Status"` (case-insensitively) selects column
2, and the sample run's sorted rows are non-decreasing in that column. -/
theorem rows_sorted_by_selected_column_witness :
    headers.lookup (str_lower "Status") = some 2 ∧
    List.Pairwise
      (fun a b => str_le (row_sort_key 2 a) (row_sort_key 2 b) = true)
      (sort_rows 2 (get_active_tickets sampleSession "alice" 7 100)) :=
  ⟨rfl, rows_sorted_by_selected_column sampleSession "alice" 7 100 "Status" 2 rfl⟩

/-- C9: the Presenter's sort is stable: whenever two rows appear in that
order in the input (`[a, b]` a sublist of the built row list, which is in
the Fetcher's result order) and their selected-column values are equal,
they appear in the same relative order in the sorted output. -/
theorem sort_rows_stable (sort_idx : Nat) (rows : List (List String))
    (a b : List String) (hab : List.Sublist [a, b] rows)
    (heq : row_sort_key sort_idx a = row_sort_key sort_idx b) :
    List.Sublist [a, b] (sort_rows sort_idx rows) := by
  haveI : IsTotal (List String)
      (fun a b => str_le (row_sort_key sort_idx a) (row_sort_key sort_idx b) = true) :=
    ⟨fun a b => chars_le_total _ _⟩
  haveI : IsTrans (List String)
      (fun a b => str_le (row_sort_key sort_idx a) (row_sort_key sort_idx b) = true) :=
    ⟨fun _ _ _ hab hbc => chars_le_trans _ _ _ hab hbc⟩
  refine List.pair_sublist_insertionSort ?_ hab
  rw [heq]
  exact chars_le_refl _

/-- Witness for C9: two rows that tie on the `"interacted"` column (index 3)
keep their input order through the sort, even though the tie-breaking
column values are in descending order. -/
theorem sort_rows_stable_witness :
    List.Sublist [["B", "y", "S1", "No"], ["A", "x", "S2", "No"]]
      ([["B", "y", "S1", "No"], ["A", "x", "S2", "No"]] : List (List String)) ∧
    row_sort_key 3 ["B", "y", "S1", "No"] = row_sort_key 3 ["A", "x", "S2", "No"] ∧
    List.Sublist [["B", "y", "S1", "No"], ["A", "x", "S2", "No"]]
      (sort_rows 3 [["B", "y", "S1", "No"], ["A", "x", "S2", "No"]]) :=
  ⟨List.Sublist.refl _, rfl,
    sort_rows_stable 3 _ _ _ (List.Sublist.refl _) rfl⟩

/-- C6: every successful run's trailing summary line is exactly
`"User {user} worked on {N} tickets in the last {days} days."` with `N` the
number of rows built, which equals the count of fetched tickets and the
number of data rows of the table; in particular a run over an empty fetch
renders zero data rows and reports `0` tickets. -/
theorem summary_line_matches_row_count (session : Session) (user : String)
    (days max_results : Int) (sort_by : String) (out : Output)
    (h : track_tickets session user days max_results sort_by = TrackResult.success out) :
    out.summary =
      "User " ++ user ++ " worked on "
        ++ toString (get_user_tickets_in_range session user days max_results).length
        ++ " tickets in the last " ++ toString days ++ " days." ∧
    out.tableRows.length =
      (get_user_tickets_in_range session user days max_results).length ∧
    (get_user_tickets_in_range session user days max_results = [] →
      out.tableRows = [] ∧
      out.summary =
        "User " ++ user ++ " worked on " ++ toString (0 : Nat)
          ++ " tickets in the last " ++ toString days ++ " days.") := by
  have hlen_active : (get_active_tickets session user days max_results).length =
      (get_user_tickets_in_range session user days max_results).length := by
    rw [get_active_tickets_eq_map]
    exact List.length_map _ _
  unfold track_tickets at h
  split at h
  · exact absurd h (by simp)
  next sort_idx hl =>
    dsimp only at h
    split at h
    · exact absurd h (by simp)
    next rows hc =>
      cases h
      have hrows_len : rows.length =
          (get_user_tickets_in_range session user days max_results).length := by
        rw [(clean_row_data_spec _ _ hc).1]
        unfold sort_rows
        rw [List.length_insertionSort]
        exact hlen_active
      refine ⟨?_, hrows_len, ?_⟩
      · show summary_line user
          (get_active_tickets session user days max_results).length days = _
        rw [summary_line, hlen_active]
      · intro hz
        have hrows_nil : rows = [] := List.length_eq_zero.mp (by rw [hrows_len, hz]; rfl)
        constructor
        · exact hrows_nil
        · show summary_line user
            (get_active_tickets session user days max_results).length days = _
          rw [summary_line, hlen_active, hz]
          rfl

/-- Witness for C6 at the sample session: the run over two fetched tickets
succeeds and its summary line reports 2 tickets over 7 days. -/
theorem summary_line_matches_row_count_witness :
    track_tickets sampleSession "alice" 7 100 "status" =
      TrackResult.success
        ⟨[[GREEN ++ "A-2" ++ RESET, GREEN ++ "Add feature" ++ RESET,
            GREEN ++ "Done" ++ RESET, GREEN ++ "Yes" ++ RESET],
          [RED ++ "A-1" ++ RESET, RED ++ "Fix bug" ++ RESET,
            RED ++ "To Do" ++ RESET, RED ++ "No" ++ RESET]],
          ["Ticket", "Summary", "Status", "Interacted"],
          "User alice worked on 2 tickets in the last 7 days."⟩ ∧
    (Output.mk
        [[GREEN ++ "A-2" ++ RESET, GREEN ++ "Add feature" ++ RESET,
            GREEN ++ "Done" ++ RESET, GREEN ++ "Yes" ++ RESET],
          [RED ++ "A-1" ++ RESET, RED ++ "Fix bug" ++ RESET,
            RED ++ "To Do" ++ RESET, RED ++ "No" ++ RESET]]
        ["Ticket", "Summary", "Status", "Interacted"]
        "User alice worked on 2 tickets in the last 7 days.").summary =
      "User " ++ "alice" ++ " worked on "
        ++ toString (get_user_tickets_in_range sampleSession "alice" 7 100).length
        ++ " tickets in the last " ++ toString (7 : Int) ++ " days." :=
  ⟨rfl,
    (summary_line_matches_row_count sampleSession "alice" 7 100 "status" _ rfl).1⟩

/-- C8: the Row Builder emits exactly one row per fetched ticket, at the
same position as the ticket in the Fetcher's result order, and the coloring
stage (`clean_row_data`) maps each input row to exactly one output row at
the same position — never dropping, duplicating or reordering rows. -/
theorem rows_one_to_one_through_coloring (session : Session) (user : String)
    (days max_results : Int) (rows out : List (List String))
    (h : clean_row_data rows = some out) :
    ((get_active_tickets session user days max_results).length =
        (get_user_tickets_in_range session user days max_results).length ∧
      ∀ i : Nat,
        (get_active_tickets session user days max_results)[i]? =
          ((get_user_tickets_in_range session user days max_results)[i]?).map
            (fun ticket =>
              [ticket.key, ticket.summary, ticket.statusName,
                has_user_commented ticket session user])) ∧
    out.length = rows.length ∧
    ∀ (i : Nat) (r : List String), rows[i]? = some r →
      ∃ c, color_text r = some c ∧ out[i]? = some c := by
  refine ⟨⟨?_, ?_⟩, (clean_row_data_spec rows out h).1, (clean_row_data_spec rows out h).2⟩
  · rw [get_active_tickets_eq_map]
    exact List.length_map _ _
  · intro i
    rw [get_active_tickets_eq_map]
    exact List.getElem?_map _ _ _

/-- Witness for C8: the colored sample rows correspond one-to-one and in
order to the built rows, and the built rows to the fetched tickets. -/
theorem rows_one_to_one_through_coloring_witness :
    clean_row_data (get_active_tickets sampleSession "alice" 7 100) =
      some [[RED ++ "A-1" ++ RESET, RED ++ "Fix bug" ++ RESET,
          RED ++ "To Do" ++ RESET, RED ++ "No" ++ RESET],
        [GREEN ++ "A-2" ++ RESET, GREEN ++ "Add feature" ++ RESET,
          GREEN ++ "Done" ++ RESET, GREEN ++ "Yes" ++ RESET]] ∧
    (get_active_tickets sampleSession "alice" 7 100).length =
      (get_user_tickets_in_range sampleSession "alice" 7 100).length :=
  ⟨rfl,
    (rows_one_to_one_through_coloring sampleSession "alice" 7 100
      (get_active_tickets sampleSession "alice" 7 100) _ rfl).1.1⟩

/-- C7: for every user string and positive `days` and `max_results`, the
query the Ticket Fetcher builds is equivalent — equal after lower-casing
and erasing whitespace — to the spec's
`"assignee = {user} AND updated >= -{days}d ORDER BY key"`, and the fetch
is exactly one search call with that query string capped at `max_results`,
returning whatever tickets the service matches (possibly fewer than the
cap, including none). -/
theorem fetch_query_equivalent_and_capped (session : Session) (user : String)
    (days max_results : Int) (hd : 0 < days) (hm : 0 < max_results) :
    query_normalize (query_string user days) =
      query_normalize (spec_query_string user days) ∧
    get_user_tickets_in_range session user days max_results =
      session.searchIssues (query_string user days) max_results := by
  refine ⟨?_, rfl⟩
  unfold query_normalize query_string spec_query_string
  simp only [String.data_append, List.map_append, List.filter_append]
  congr 1

/-- Witness for C7: at `user = "alice"`, `days = 7`, `max_results = 100`
on the sample session, the built query normalizes like the spec's and the
fetch is the capped search call. -/
theorem fetch_query_equivalent_and_capped_witness :
    (0 : Int) < 7 ∧ (0 : Int) < 100 ∧
    (query_normalize (query_string "alice" 7) =
      query_normalize (spec_query_string "alice" 7) ∧
    get_user_tickets_in_range sampleSession "alice" 7 100 =
      sampleSession.searchIssues (query_string "alice" 7) 100) :=
  ⟨by decide, by decide,
    fetch_query_equivalent_and_capped sampleSession "alice" 7 100
      (by decide) (by decide)⟩

end JiraTracker
